import Mathlib

/-!
Shallow embedding of the optimistic paginated cache logic of the
socialhub-app client (PostCard.jsx, PostsListing.jsx, Notifications.jsx,
and the profile file src/unnamed/part_004), together with theorems
settling the claims about it.

Modelling conventions:
* JavaScript field values that may hold arbitrary JSON scalars are
  modelled by `JSVal`; an absent (`undefined`) field is `Option.none`,
  an explicit `null` is `some JSVal.vNull`.
* JS numbers in the modelled code paths are integer counts, so `JSVal.vNum`
  carries an `Int`; `JSVal.vNaN` models `NaN` where it can arise.
* A JS string field that the code only ever reads as a string is modelled
  directly as `Option String`.
-/

inductive JSVal where
  | vNull
  | vBool (b : Bool)
  | vNum (n : Int)
  | vNaN
  | vStr (s : String)
deriving Repr, DecidableEq

/-- Truthiness of a JS value (`Boolean(v)`): `null`, `0`, `NaN` and `""` are falsy. -/
def jsTruthy : JSVal → Bool
  | .vNull => false
  | .vBool b => b
  | .vNum n => n ≠ 0
  | .vNaN => false
  | .vStr s => s ≠ ""

/-- Truthiness of a possibly-absent JS value; `undefined` is falsy. -/
def jsTruthyOpt : Option JSVal → Bool
  | none => false
  | some v => jsTruthy v

/-- `a ?? b`: the left value unless it is `null`/`undefined`. -/
def jsCoalesce : Option JSVal → Option JSVal → Option JSVal
  | none, b => b
  | some .vNull, b => b
  | some v, _ => some v

/-- Substring containment over char lists, used to model `String.prototype.includes`. -/
def charListIsInit : List Char → List Char → Bool
  | [], _ => true
  | _ :: _, [] => false
  | a :: as, b :: bs => a = b && charListIsInit as bs

def charListOccurs (needle : List Char) : List Char → Bool
  | [] => charListIsInit needle []
  | c :: cs => charListIsInit needle (c :: cs) || charListOccurs needle cs

/-- `hay.includes(needle)` on JS strings. -/
def strContains (hay needle : String) : Bool :=
  charListOccurs needle.toList hay.toList

/-- `s.toLowerCase()` for the ASCII strings handled here. -/
def strToLower (s : String) : String :=
  ⟨s.data.map Char.toLower⟩

/-- `s.trim()`: strip leading and trailing whitespace. -/
def strTrim (s : String) : String :=
  ⟨(s.data.dropWhile Char.isWhitespace).reverse.dropWhile Char.isWhitespace |>.reverse⟩

/-- Value of `Number(cs)` for a trimmed, non-empty char list, when finite:
digit run with optional sign; anything else is `NaN` (`none`). -/
def charListDigits : List Char → Option Nat
  | [] => none
  | cs =>
    cs.foldl
      (fun acc c =>
        match acc with
        | none => none
        | some n => if c.isDigit then some (n * 10 + (c.toNat - 48)) else none)
      (some 0)

/-- `Number(s)` on a string, returning `some n` exactly when the result is a
finite number `n` (the modelled strings denote integers; `""` gives `0`). -/
def strToNumber (s : String) : Option Int :=
  let t := strTrim s
  if t = "" then some 0
  else
    match t.toList with
    | '-' :: rest => (charListDigits rest).map (fun n => -(n : Int))
    | '+' :: rest => (charListDigits rest).map (fun n => (n : Int))
    | cs => (charListDigits cs).map (fun n => (n : Int))

/-- `Number(v)` on a JS value, returning `some n` exactly when the result is finite. -/
def toNumberFinite : JSVal → Option Int
  | .vNull => some 0
  | .vBool b => some (if b then 1 else 0)
  | .vNum n => some n
  | .vNaN => none
  | .vStr s => strToNumber s

/-- PostCard.jsx `parseBooleanLike`: booleans pass through, finite numbers map to
`> 0`, recognized string tokens map to a boolean, everything else is `null`. -/
def parseBooleanLike : JSVal → Option Bool
  | .vBool b => some b
  | .vNum n => some (decide (0 < n))
  | .vNaN => none
  | .vNull => none
  | .vStr s =>
    let normalized := strToLower (strTrim s)
    if normalized = "" then none
    else if normalized ∈ ["true", "yes", "saved", "bookmarked", "1"] then some true
    else if normalized ∈ ["false", "no", "unsaved", "unbookmarked", "0"] then some false
    else none

/-- The `for (const value of candidates)` loop over `parseBooleanLike`:
first candidate that parses to a boolean wins. -/
def firstParsedBooleanLike : List (Option JSVal) → Option Bool
  | [] => none
  | v :: rest =>
    match v.bind parseBooleanLike with
    | some b => some b
    | none => firstParsedBooleanLike rest

/-- Shape of a like-toggle server response, with the fields read by
`getLikeResultFromResponse` plus the explicit liked-state flags that the
spec's precedence rule talks about (the source function never reads those). -/
structure LikeResponse where
  message : Option String := none
  dataLikesCount : Option JSVal := none
  likesCount : Option JSVal := none
  dataCount : Option JSVal := none
  /-- length of `data.likes` when that field is an array, else `none` -/
  dataLikes : Option Nat := none
  /-- length of `likes` when that field is an array, else `none` -/
  likes : Option Nat := none
  dataIsLiked : Option JSVal := none
  isLiked : Option JSVal := none
deriving Repr, DecidableEq

structure LikeResult where
  isLiked : Bool
  count : Int
deriving Repr, DecidableEq

/-- The `??` chain extracting a server-reported like count, then the
`Number.isFinite(Number(countFromApi))` gate.  The chain's last two operands
are the expressions `Array.isArray(x) ? x.length : null` — they always
evaluate to a value (a length, or `null`), so the chain never yields
`undefined`; when every count field is absent it yields `null`, and
`Number(null) = 0` passes the finiteness gate as `0`. -/
def likeCountFromApi (responseData : LikeResponse) : Option Int :=
  (jsCoalesce responseData.dataLikesCount
    (jsCoalesce responseData.likesCount
      (jsCoalesce responseData.dataCount
        (jsCoalesce
          (some (match responseData.dataLikes with
                 | some n => JSVal.vNum (n : Int)
                 | none => JSVal.vNull))
          (some (match responseData.likes with
                 | some n => JSVal.vNum (n : Int)
                 | none => JSVal.vNull)))))).bind
    toNumberFinite

/-- `getLikeResultFromResponse` (identical copies in PostCard.jsx and
PostsListing.jsx): direction from message keywords, else a flip of the
previous state; count from the API when finite, else computed locally.
`currentCount` is `some n` when the caller's count is a finite number. -/
def getLikeResultFromResponse (responseData : LikeResponse)
    (currentLikeState : Bool) (currentCount : Option Int) : LikeResult :=
  let message := strToLower (responseData.message.getD "")
  let nextIsLiked :=
    if strContains message "unlike" || strContains message "removed" ||
        strContains message "delete" then
      false
    else if strContains message "like" then
      true
    else
      !currentLikeState
  let safeCurrentCount := currentCount.getD 0
  let computedCount : Int :=
    if nextIsLiked then safeCurrentCount + (if currentLikeState then 0 else 1)
    else max 0 (safeCurrentCount - (if currentLikeState then 1 else 0))
  match likeCountFromApi responseData with
  | some n => { isLiked := nextIsLiked, count := n }
  | none => { isLiked := nextIsLiked, count := computedCount }

/-- Shape of a bookmark-toggle server response, with the fields read by
`getBookmarkResultFromResponse`. -/
structure BookmarkResponse where
  dataIsBookmarked : Option JSVal := none
  isBookmarked : Option JSVal := none
  dataBookmarked : Option JSVal := none
  bookmarked : Option JSVal := none
  dataSaved : Option JSVal := none
  saved : Option JSVal := none
  dataIsSaved : Option JSVal := none
  isSaved : Option JSVal := none
  message : Option String := none
deriving Repr, DecidableEq

/-- The `responseCandidates` array of `getBookmarkResultFromResponse`, in source order. -/
def bookmarkCandidates (responseData : BookmarkResponse) : List (Option JSVal) :=
  [responseData.dataIsBookmarked, responseData.isBookmarked,
   responseData.dataBookmarked, responseData.bookmarked,
   responseData.dataSaved, responseData.saved,
   responseData.dataIsSaved, responseData.isSaved]

/-- PostCard.jsx `getBookmarkResultFromResponse`: explicit boolean-like signal
first, then message keywords, then a flip of the previous state. -/
def getBookmarkResultFromResponse (responseData : BookmarkResponse)
    (currentBookmarkState : Bool) : Bool :=
  match firstParsedBooleanLike (bookmarkCandidates responseData) with
  | some parsed => parsed
  | none =>
    let message := strToLower (responseData.message.getD "")
    if strContains message "unsave" || strContains message "un save" ||
        strContains message "unbookmark" || strContains message "remove bookmark" then
      false
    else if strContains message "saved" || strContains message "save" ||
        strContains message "bookmarked" || strContains message "bookmark" then
      true
    else
      !currentBookmarkState

/-!  ## Cached entities and paginated query data (PostsListing.jsx)  -/

/-- A cached domain record (comment/reply), with the fields the cache
helpers read and write.  `none` models an absent key. -/
structure Entity where
  _id : Option String := none
  id : Option String := none
  content : Option String := none
  isOptimistic : Option JSVal := none
  isLiked : Option JSVal := none
  likedByMe : Option JSVal := none
  likesCount : Option JSVal := none
  likes : Option JSVal := none
  repliesCount : Option JSVal := none
deriving Repr, DecidableEq

/-- Truthy filter on an optional string: JS `||` skips `""` as well as
`null`/`undefined`. -/
def truthyString : Option String → Option String
  | none => none
  | some s => if s = "" then none else some s

/-- PostsListing.jsx module-level `getEntityId`: `entity?._id || entity?.id || null`. -/
def getEntityId (entity : Entity) : Option String :=
  match truthyString entity._id with
  | some v => some v
  | none => truthyString entity.id

/-- `{ ...item, ...patch }` over the modelled fields: a field present in
`patch` overrides the one in `item`. -/
def spreadMergeEntity (item patch : Entity) : Entity where
  _id := patch._id <|> item._id
  id := patch.id <|> item.id
  content := patch.content <|> item.content
  isOptimistic := patch.isOptimistic <|> item.isOptimistic
  isLiked := patch.isLiked <|> item.isLiked
  likedByMe := patch.likedByMe <|> item.likedByMe
  likesCount := patch.likesCount <|> item.likesCount
  likes := patch.likes <|> item.likes
  repliesCount := patch.repliesCount <|> item.repliesCount

/-- PostsListing.jsx `getNumericCount`: `Number(value)` when finite, else `0`. -/
def getNumericCount (value : Option JSVal) : Int :=
  match value with
  | none => 0
  | some v => (toNumberFinite v).getD 0

/-- One fetched page.  `items` models the `listKey` field (`comments` or
`replies`); it is `none` when the key is absent or not an array.
`page`/`totalPages` are `some n` exactly when the field holds a (finite)
number — their only consumer is `getNextPageParam`'s `typeof x === "number"`
test, for which `null` and a non-number behave like an absent field.
`totalCount` is kept as a raw JS value (`none` = key absent) because its
consumers gate it with `Number.isFinite(Number(x))`, which accepts `null`
(the query functions' standard no-pagination value) as the finite `0`. -/
structure Page where
  items : Option (List Entity) := none
  page : Option Int := none
  totalPages : Option Int := none
  totalCount : Option JSVal := none
deriving Repr, DecidableEq

instance : Inhabited Page := ⟨{}⟩

/-- The infinite-query cache value for one query signature. -/
structure InfiniteData where
  pages : List Page
  pageParams : List Int
deriving Repr, DecidableEq

/-- All locally known items for a signature, in page order:
`(data?.pages || []).flatMap((page) => page?.comments || [])`. -/
def allItems (d : InfiniteData) : List Entity :=
  (d.pages.map (fun page => page.items.getD [])).flatten

/-- Number of cached items carrying `targetId`. -/
def idCount (d : InfiniteData) (targetId : String) : Nat :=
  (allItems d).countP (fun item => getEntityId item == some targetId)

/-- PostsListing.jsx `prependEntityToInfiniteQueryData`.  The cache value is
`none` when the old data is nullish or its `pages` is not an array. -/
def prependEntityToInfiniteQueryData (oldData : Option InfiniteData)
    (entity : Entity) : InfiniteData :=
  match oldData with
  | none =>
    { pages := [{ items := some [entity], page := some 1,
                  totalPages := some 1, totalCount := some (.vNum 1) }],
      pageParams := [1] }
  | some d =>
    let firstPage := d.pages.headD {}
    let currentList := firstPage.items.getD []
    { d with
      pages :=
        { firstPage with
          items := some (entity :: currentList),
          totalCount :=
            match firstPage.totalCount.bind toNumberFinite with
            | some currentTotalCount => some (.vNum (currentTotalCount + 1))
            | none => firstPage.totalCount } :: d.pages.drop 1 }

/-- The element-wise substitution of `replaceEntityInInfiniteQueryData`:
an item carrying `targetId` becomes `nextEntity`, any other item is kept. -/
def replaceEntityItem (targetId : String) (nextEntity : Entity) (item : Entity) : Entity :=
  if getEntityId item == some targetId then nextEntity else item

/-- One page under `replaceEntityInInfiniteQueryData`'s `pages.map`. -/
def replacePageTransform (targetId : String) (nextEntity : Entity) (page : Page) : Page :=
  match page.items with
  | none => page
  | some list =>
    { page with items := some (list.map (replaceEntityItem targetId nextEntity)) }

/-- PostsListing.jsx `replaceEntityInInfiniteQueryData`.  The source's
`didChange` bookkeeping only avoids re-allocating unchanged pages; at value
level it is the identity on them, so the plain map below is equivalent. -/
def replaceEntityInInfiniteQueryData (oldData : Option InfiniteData)
    (targetId : String) (nextEntity : Entity) : Option InfiniteData :=
  match oldData with
  | none => none
  | some d =>
    if targetId = "" then some d
    else some { d with pages := d.pages.map (replacePageTransform targetId nextEntity) }

/-- PostsListing.jsx `patchEntityInInfiniteQueryData` (the patch argument is
always a plain object at the call sites, so the `typeof` guard is not
modelled).  As above, the `didChange` flags are value-level identities. -/
def patchEntityInInfiniteQueryData (oldData : Option InfiniteData)
    (targetId : String) (patch : Entity) : Option InfiniteData :=
  match oldData with
  | none => none
  | some d =>
    if targetId = "" then some d
    else
      some { d with
        pages := d.pages.map (fun page =>
          match page.items with
          | none => page
          | some list =>
            { page with
              items := some (list.map (fun item =>
                if getEntityId item == some targetId then
                  spreadMergeEntity item patch
                else item)) }) }

/-- Items of one page after filtering out `targetId`, and how many were removed. -/
def pageKeepItems (targetId : String) (list : List Entity) : List Entity :=
  list.filter (fun item => !(getEntityId item == some targetId))

/-- One page under `removeEntityFromInfiniteQueryData`'s `pages.map`. -/
def removePageTransform (targetId : String) (page : Page) : Page :=
  match page.items with
  | none => page
  | some list => { page with items := some (pageKeepItems targetId list) }

/-- PostsListing.jsx `removeEntityFromInfiniteQueryData`.  The source counts
the filtered-out items while mapping; over pages whose list key is absent it
counts nothing, so the count equals `idCount` over the concatenated items. -/
def removeEntityFromInfiniteQueryData (oldData : Option InfiniteData)
    (targetId : String) : Option InfiniteData :=
  match oldData with
  | none => none
  | some d =>
    if targetId = "" then some d
    else
      let nextPages := d.pages.map (removePageTransform targetId)
      let removedCount := idCount d targetId
      if removedCount = 0 then some d
      else
        match nextPages with
        | [] => some { d with pages := nextPages }
        | firstPage :: rest =>
          match firstPage.totalCount.bind toNumberFinite with
          | some currentTotalCount =>
            some { d with
              pages :=
                { firstPage with
                  totalCount :=
                    some (.vNum (max 0 (currentTotalCount - (removedCount : Int)))) }
                :: rest }
          | none => some { d with pages := firstPage :: rest }

/-- PostsListing.jsx `updateCommentReplyCountInInfiniteQueryData`. -/
def updateCommentReplyCountInInfiniteQueryData (oldData : Option InfiniteData)
    (commentId : String) (delta : Int) : Option InfiniteData :=
  match oldData with
  | none => none
  | some d =>
    if commentId = "" then some d
    else
      some { d with
        pages := d.pages.map (fun page =>
          match page.items with
          | none => page
          | some comments =>
            { page with
              items := some (comments.map (fun comment =>
                if getEntityId comment == some commentId then
                  { comment with
                    repliesCount :=
                      some (.vNum (max 0 (getNumericCount comment.repliesCount + delta))) }
                else comment)) }) }

/-- PostsListing.jsx `mergeOptimisticWithServerEntity`. -/
def mergeOptimisticWithServerEntity
    (optimisticEntity serverEntity : Option Entity) : Option Entity :=
  match optimisticEntity, serverEntity with
  | none, s => s
  | some o, none => some o
  | some o, some s =>
    let base := spreadMergeEntity o s
    let likesCountFirst := getNumericCount s.likesCount
    some { base with
      _id :=
        match truthyString s._id with
        | some v => some v
        | none => match truthyString s.id with
          | some v => some v
          | none => o._id,
      id :=
        match truthyString s.id with
        | some v => some v
        | none => match truthyString s._id with
          | some v => some v
          | none => o.id,
      isOptimistic := some (.vBool false),
      isLiked := some (.vBool (jsTruthyOpt s.isLiked || jsTruthyOpt s.likedByMe)),
      likedByMe := some (.vBool (jsTruthyOpt s.likedByMe || jsTruthyOpt s.isLiked)),
      likesCount :=
        some (.vNum (if likesCountFirst ≠ 0 then likesCountFirst
                     else getNumericCount s.likes)) }

/-!  ## Pagination: next-page decision (PostsListing.jsx)  -/

def COMMENTS_PAGE_LIMIT : Nat := 10
def REPLIES_PAGE_LIMIT : Nat := 10

/-- The comments `getNextPageParam` arrow function: if `totalPages` is a
number, offer `page + 1` while `page < totalPages`; otherwise offer
`page + 1` when the fetched page holds exactly `COMMENTS_PAGE_LIMIT` items.
The returned page param is a JS value because `lastPage.page + 1` is `NaN`
when `page` is absent (still a non-nullish param). -/
def getNextPageParamComments (lastPage : Page) : Option JSVal :=
  match lastPage.totalPages with
  | some totalPages =>
    match lastPage.page with
    | some p => if p < totalPages then some (.vNum (p + 1)) else none
    | none => none
  | none =>
    if (match lastPage.items with
        | some l => decide (l.length = COMMENTS_PAGE_LIMIT)
        | none => false) then
      some (match lastPage.page with
            | some p => .vNum (p + 1)
            | none => .vNaN)
    else none

/-- The replies `getNextPageParam` arrow function (same logic over
`REPLIES_PAGE_LIMIT` and the `replies` list key). -/
def getNextPageParamReplies (lastPage : Page) : Option JSVal :=
  match lastPage.totalPages with
  | some totalPages =>
    match lastPage.page with
    | some p => if p < totalPages then some (.vNum (p + 1)) else none
    | none => none
  | none =>
    if (match lastPage.items with
        | some l => decide (l.length = REPLIES_PAGE_LIMIT)
        | none => false) then
      some (match lastPage.page with
            | some p => .vNum (p + 1)
            | none => .vNaN)
    else none

/-- Modelled from the spec: the data-fetching library reports a next page
exactly when `getNextPageParam` returned a non-nullish param. -/
def hasNextPageComments (lastPage : Page) : Bool :=
  (getNextPageParamComments lastPage).isSome

/-- Modelled from the spec: "each fetched page is appended to the existing
page sequence for its signature only when explicitly requested (pagination
load next)" — a successful `fetchNextPage` appends the fetched page. -/
def fetchNextPageAppend (d : InfiniteData) (fetchedPage : Page)
    (pageParam : Int) : InfiniteData :=
  { pages := d.pages ++ [fetchedPage], pageParams := d.pageParams ++ [pageParam] }

/-!  ## Optimistic comment creation and rollback (PostsListing.jsx)  -/

/-- `createCommentMutation.onMutate`: capture the current cache value for the
signature as the snapshot, then apply the optimistic prepend.  Returns the
new cache value and the captured `previousComments` context. -/
def createCommentOnMutate (cache : Option InfiniteData)
    (optimisticComment : Entity) : Option InfiniteData × Option InfiniteData :=
  (some (prependEntityToInfiniteQueryData cache optimisticComment), cache)

/-- `createCommentMutation.onError`: when the snapshot was `undefined` the
query is removed (cache key cleared), otherwise the snapshot is written back. -/
def createCommentOnError (previousComments : Option InfiniteData) :
    Option InfiniteData :=
  match previousComments with
  | none => none
  | some prev => some prev

/-!  ## Follow toggle with optimistic override (src/unnamed/part_004)  -/

structure FollowOverride where
  isFollowing : Bool
  followersCount : Int
deriving Repr, DecidableEq

/-- `setFollowOverrides((prev) => ({ ...prev, [userId]: value }))`. -/
def setFollowOverride (prev : String → Option FollowOverride)
    (userId : String) (value : FollowOverride) : String → Option FollowOverride :=
  fun u => if u = userId then some value else prev u

/-- `followMutation.onMutate`: optimistically install the next follow state. -/
def followOnMutate (overrides : String → Option FollowOverride) (userId : String)
    (nextIsFollowing : Bool) (nextFollowersCount : Int) :
    String → Option FollowOverride :=
  setFollowOverride overrides userId
    { isFollowing := nextIsFollowing, followersCount := nextFollowersCount }

/-- `followMutation.onError`: write back the pre-mutation values carried in
the mutation variables. -/
def followOnError (overrides : String → Option FollowOverride) (userId : String)
    (currentIsFollowing : Bool) (currentFollowersCount : Int) :
    String → Option FollowOverride :=
  setFollowOverride overrides userId
    { isFollowing := currentIsFollowing, followersCount := currentFollowersCount }

/-- `otherProfileFollowOverride?.isFollowing ?? otherProfileBaseFollowState`. -/
def followDisplayIsFollowing (overrides : String → Option FollowOverride)
    (userId : String) (base : Bool) : Bool :=
  match overrides userId with
  | some o => o.isFollowing
  | none => base

/-- `otherProfileFollowOverride?.followersCount ?? followersCount`. -/
def followDisplayFollowersCount (overrides : String → Option FollowOverride)
    (userId : String) (base : Int) : Int :=
  match overrides userId with
  | some o => o.followersCount
  | none => base

/-!  ## Marking notifications as read (Notifications.jsx)  -/

/-- Response body relevant to the mark-as-read flow. -/
structure ApiResponse where
  success : Option Bool := none
  message : Option String := none
deriving Repr, DecidableEq

inductive MarkReadError where
  | httpError (status : Option Nat)
  | generic (message : String)
deriving Repr, DecidableEq

/-- Outcome of one endpoint attempt: a response body, or a failure with an
optional HTTP status (`none` models a transport error without a status). -/
inductive AttemptOutcome where
  | success (body : ApiResponse)
  | failure (status : Option Nat)
deriving Repr, DecidableEq

/-- The `for (const requestOptions of attempts)` loop shared by
`markNotificationRead` and `markAllNotificationsRead`: first success wins;
a 404 yields a synthetic success; a truthy status other than 404/405 is
raised immediately; otherwise the next endpoint is attempted, and when all
attempts are exhausted the last error (or a generic one) is raised. -/
def runMarkReadAttempts (syntheticMessage fallbackMessage : String) :
    List AttemptOutcome → Option MarkReadError → Except MarkReadError ApiResponse
  | [], lastError => .error (lastError.getD (.generic fallbackMessage))
  | outcome :: rest, _lastError =>
    match outcome with
    | .success body => .ok body
    | .failure status =>
      if status = some 404 then
        .ok { success := some true, message := some syntheticMessage }
      else if (match status with
               | some s => decide (s ≠ 0 ∧ s ≠ 404 ∧ s ≠ 405)
               | none => false) then
        .error (.httpError status)
      else
        runMarkReadAttempts syntheticMessage fallbackMessage rest
          (some (.httpError status))

/-- Notifications.jsx `markNotificationRead`, over the outcomes the remote
system gives its four endpoint attempts (in order). -/
def markNotificationRead (notificationId : Option String)
    (outcomes : List AttemptOutcome) : Except MarkReadError ApiResponse :=
  match truthyString notificationId with
  | none => .error (.generic "Missing notification id.")
  | some _ =>
    runMarkReadAttempts "Notification not found."
      "Failed to mark notification as read." outcomes none

/-- Notifications.jsx `markAllNotificationsRead`, over the outcomes of its
three endpoint attempts. -/
def markAllNotificationsRead (outcomes : List AttemptOutcome) :
    Except MarkReadError ApiResponse :=
  runMarkReadAttempts "No unread notifications."
    "Failed to mark all notifications as read." outcomes none

/-- A failure outcome the loop skips past: no status (transport error
without response), status 0, or status 405. -/
def benignAttemptFailure : AttemptOutcome → Prop
  | .failure none => True
  | .failure (some s) => s = 0 ∨ s = 405
  | .success _ => False

instance : DecidablePred benignAttemptFailure := fun o =>
  match o with
  | .failure none => .isTrue trivial
  | .failure (some s) => inferInstanceAs (Decidable (s = 0 ∨ s = 405))
  | .success _ => .isFalse id

/-!  ## Sequences of cache operations (for the totalCount invariant)  -/

inductive CacheOp where
  | prependOp (entity : Entity)
  | patchOp (targetId : String) (patch : Entity)
  | removeOp (targetId : String)
  | replyCountOp (commentId : String) (delta : Int)
deriving Repr

def applyCacheOp (s : Option InfiniteData) : CacheOp → Option InfiniteData
  | .prependOp entity => some (prependEntityToInfiniteQueryData s entity)
  | .patchOp targetId patch => patchEntityInInfiniteQueryData s targetId patch
  | .removeOp targetId => removeEntityFromInfiniteQueryData s targetId
  | .replyCountOp commentId delta =>
    updateCommentReplyCountInInfiniteQueryData s commentId delta

def applyCacheOps (s : Option InfiniteData) (ops : List CacheOp) : Option InfiniteData :=
  ops.foldl applyCacheOp s

/-- The invariant of claim C3: every `totalCount` the code reads as a finite
number (via `Number.isFinite(Number(x))`, so including `null` as `0`) is
non-negative. -/
def pageTotalCountOk (p : Page) : Bool :=
  match p.totalCount.bind toNumberFinite with
  | some n => decide (0 ≤ n)
  | none => true

def totalCountOk : Option InfiniteData → Bool
  | none => true
  | some d => d.pages.all pageTotalCountOk

/-- Read one record by id from the concatenated pages (first match, page order). -/
def findEntityById (d : InfiniteData) (targetId : String) : Option Entity :=
  (allItems d).find? (fun item => getEntityId item == some targetId)

/-!  ## Theorems  -/

/-- C1 (counterexample): a like-toggle response carrying an explicit
boolean-like liked signal (`isLiked: true`) and no boolean-free disambiguation
— no message at all — is not reconciled from that signal as the claimed
precedence demands: the code flips the previous liked state and answers
`isLiked = false` where the signal says `true`. -/
theorem like_boolean_signal_ignored_counterexample :
    parseBooleanLike (JSVal.vBool true) = some true ∧
    ({ isLiked := some (JSVal.vBool true) } : LikeResponse).message = none ∧
    (getLikeResultFromResponse { isLiked := some (JSVal.vBool true) } true (some 5)).isLiked
      = false := by
  refine ⟨rfl, rfl, ?_⟩
  decide

theorem getLikeResult_isLiked (responseData : LikeResponse)
    (currentLikeState : Bool) (currentCount : Option Int) :
    (getLikeResultFromResponse responseData currentLikeState currentCount).isLiked
      = (if strContains (strToLower (responseData.message.getD "")) "unlike" ||
            strContains (strToLower (responseData.message.getD "")) "removed" ||
            strContains (strToLower (responseData.message.getD "")) "delete" then
          false
        else if strContains (strToLower (responseData.message.getD "")) "like" then
          true
        else
          !currentLikeState) := by
  unfold getLikeResultFromResponse
  cases likeCountFromApi responseData <;> rfl

/-- C1 (amended): bookmark-toggle reconciliation follows the stated
three-stage precedence in full — an explicit boolean-like signal among the
candidate fields determines the result; with no signal, an un-save keyword
in the message yields `false` and otherwise a save keyword yields `true`;
with no signal and no keywords the previous state is flipped — whereas
like-toggle reconciliation ignores the explicit liked flags entirely: an
unlike/removed/delete keyword yields not-liked, otherwise a like keyword
yields liked, and with no keywords (in particular, any keyword-free or
absent message) the previous local state is flipped. -/
theorem toggle_reconciliation_precedence :
    (∀ (r : BookmarkResponse) (prev b : Bool),
      firstParsedBooleanLike (bookmarkCandidates r) = some b →
      getBookmarkResultFromResponse r prev = b) ∧
    (∀ (r : BookmarkResponse) (prev : Bool),
      firstParsedBooleanLike (bookmarkCandidates r) = none →
      (strContains (strToLower (r.message.getD "")) "unsave" = true ∨
       strContains (strToLower (r.message.getD "")) "un save" = true ∨
       strContains (strToLower (r.message.getD "")) "unbookmark" = true ∨
       strContains (strToLower (r.message.getD "")) "remove bookmark" = true) →
      getBookmarkResultFromResponse r prev = false) ∧
    (∀ (r : BookmarkResponse) (prev : Bool),
      firstParsedBooleanLike (bookmarkCandidates r) = none →
      strContains (strToLower (r.message.getD "")) "unsave" = false →
      strContains (strToLower (r.message.getD "")) "un save" = false →
      strContains (strToLower (r.message.getD "")) "unbookmark" = false →
      strContains (strToLower (r.message.getD "")) "remove bookmark" = false →
      (strContains (strToLower (r.message.getD "")) "saved" = true ∨
       strContains (strToLower (r.message.getD "")) "save" = true ∨
       strContains (strToLower (r.message.getD "")) "bookmarked" = true ∨
       strContains (strToLower (r.message.getD "")) "bookmark" = true) →
      getBookmarkResultFromResponse r prev = true) ∧
    (∀ (r : BookmarkResponse) (prev : Bool),
      firstParsedBooleanLike (bookmarkCandidates r) = none →
      strContains (strToLower (r.message.getD "")) "unsave" = false →
      strContains (strToLower (r.message.getD "")) "un save" = false →
      strContains (strToLower (r.message.getD "")) "unbookmark" = false →
      strContains (strToLower (r.message.getD "")) "remove bookmark" = false →
      strContains (strToLower (r.message.getD "")) "saved" = false →
      strContains (strToLower (r.message.getD "")) "save" = false →
      strContains (strToLower (r.message.getD "")) "bookmarked" = false →
      strContains (strToLower (r.message.getD "")) "bookmark" = false →
      getBookmarkResultFromResponse r prev = !prev) ∧
    (∀ (r : LikeResponse) (prev : Bool) (c : Option Int) (v w : Option JSVal),
      getLikeResultFromResponse { r with isLiked := v, dataIsLiked := w } prev c =
        getLikeResultFromResponse r prev c) ∧
    (∀ (r : LikeResponse) (prev : Bool) (c : Option Int),
      (strContains (strToLower (r.message.getD "")) "unlike" = true ∨
       strContains (strToLower (r.message.getD "")) "removed" = true ∨
       strContains (strToLower (r.message.getD "")) "delete" = true) →
      (getLikeResultFromResponse r prev c).isLiked = false) ∧
    (∀ (r : LikeResponse) (prev : Bool) (c : Option Int),
      strContains (strToLower (r.message.getD "")) "unlike" = false →
      strContains (strToLower (r.message.getD "")) "removed" = false →
      strContains (strToLower (r.message.getD "")) "delete" = false →
      strContains (strToLower (r.message.getD "")) "like" = true →
      (getLikeResultFromResponse r prev c).isLiked = true) ∧
    (∀ (r : LikeResponse) (prev : Bool) (c : Option Int),
      strContains (strToLower (r.message.getD "")) "unlike" = false →
      strContains (strToLower (r.message.getD "")) "removed" = false →
      strContains (strToLower (r.message.getD "")) "delete" = false →
      strContains (strToLower (r.message.getD "")) "like" = false →
      (getLikeResultFromResponse r prev c).isLiked = !prev) := by
  refine ⟨?_, ?_, ?_, ?_, ?_, ?_, ?_, ?_⟩
  · intro r prev b h
    simp [getBookmarkResultFromResponse, h]
  · intro r prev h hkw
    rcases hkw with hk | hk | hk | hk <;>
      simp [getBookmarkResultFromResponse, h, hk]
  · intro r prev h h1 h2 h3 h4 hkw
    rcases hkw with hk | hk | hk | hk <;>
      simp [getBookmarkResultFromResponse, h, h1, h2, h3, h4, hk]
  · intro r prev h h1 h2 h3 h4 h5 h6 h7 h8
    simp [getBookmarkResultFromResponse, h, h1, h2, h3, h4, h5, h6, h7, h8]
  · intro r prev c v w
    rfl
  · intro r prev c hkw
    rw [getLikeResult_isLiked]
    rcases hkw with hk | hk | hk <;> simp [hk]
  · intro r prev c h1 h2 h3 h4
    rw [getLikeResult_isLiked]
    simp [h1, h2, h3, h4]
  · intro r prev c h1 h2 h3 h4
    rw [getLikeResult_isLiked]
    simp [h1, h2, h3, h4]

/-- C1 (amended, witness): a bookmark response whose `data.isBookmarked`
field is the explicit boolean `false` reconciles to `false` even over a
previously-bookmarked state. -/
theorem toggle_reconciliation_precedence_witness :
    getBookmarkResultFromResponse { dataIsBookmarked := some (JSVal.vBool false) } true
      = false :=
  toggle_reconciliation_precedence.1
    { dataIsBookmarked := some (JSVal.vBool false) } true false (by decide)

/-- C2: a follow toggle that fails after an optimistic override restores the
pre-mutation display state exactly (shown in general, given that the mutation
variables carry the currently displayed values, as at the call site); and a
failed optimistic comment prepend restores the captured cache value for the
signature verbatim (an absent snapshot removes the query). -/
theorem restore_after_failed_mutation :
    (∀ (overrides : String → Option FollowOverride) (userId : String)
       (baseIsFollowing : Bool) (baseCount : Int)
       (currentIsFollowing : Bool) (currentCount : Int)
       (nextIsFollowing : Bool) (nextCount : Int),
      followDisplayIsFollowing overrides userId baseIsFollowing = currentIsFollowing →
      followDisplayFollowersCount overrides userId baseCount = currentCount →
      followDisplayIsFollowing
          (followOnError (followOnMutate overrides userId nextIsFollowing nextCount)
            userId currentIsFollowing currentCount) userId baseIsFollowing
        = currentIsFollowing ∧
      followDisplayFollowersCount
          (followOnError (followOnMutate overrides userId nextIsFollowing nextCount)
            userId currentIsFollowing currentCount) userId baseCount
        = currentCount) ∧
    (∀ (cache : Option InfiniteData) (optimisticComment : Entity),
      createCommentOnError (createCommentOnMutate cache optimisticComment).2 = cache) := by
  constructor
  · intro overrides userId baseIsFollowing baseCount currentIsFollowing currentCount
      nextIsFollowing nextCount _h1 _h2
    constructor <;>
      simp [followDisplayIsFollowing, followDisplayFollowersCount, followOnError,
        followOnMutate, setFollowOverride]
  · intro cache optimisticComment
    cases cache <;> rfl

/-- C2 (witness): over a prior displayed state `{isFollowing: false,
followersCount: 10}` with no pre-existing override, a failed follow toggle
that optimistically applied `{isFollowing: true, followersCount: 11}` ends
displaying exactly `{isFollowing: false, followersCount: 10}`. -/
theorem restore_after_failed_mutation_witness :
    followDisplayIsFollowing
        (followOnError (followOnMutate (fun _ => none) "user-1" true 11) "user-1" false 10)
        "user-1" false = false ∧
    followDisplayFollowersCount
        (followOnError (followOnMutate (fun _ => none) "user-1" true 11) "user-1" false 10)
        "user-1" 10 = 10 :=
  restore_after_failed_mutation.1 (fun _ => none) "user-1" false 10 false 10 true 11
    rfl rfl

/-- C4: with a numeric server-reported total-page count there is a next page
exactly when the current page number is below it; without one there is a
next page exactly when the fetched page holds exactly `COMMENTS_PAGE_LIMIT`
(= 10) items; a page-1 fetch of 10 comments with no total-page count reports
a next page; and the replies decision is the same function. -/
theorem has_next_page_decision :
    (∀ (lastPage : Page) (p totalPages : Int),
      lastPage.totalPages = some totalPages →
      lastPage.page = some p →
      (hasNextPageComments lastPage = true ↔ p < totalPages)) ∧
    (∀ lastPage : Page,
      lastPage.totalPages = none →
      (hasNextPageComments lastPage = true ↔
        lastPage.items.map List.length = some (COMMENTS_PAGE_LIMIT : Nat))) ∧
    hasNextPageComments
      { items := some (List.replicate 10 {}), page := some 1 } = true ∧
    getNextPageParamReplies = getNextPageParamComments := by
  refine ⟨?_, ?_, by decide, funext fun lastPage => rfl⟩
  · intro lastPage p totalPages htp hp
    simp only [hasNextPageComments, getNextPageParamComments, htp, hp]
    split <;> simp_all
  · intro lastPage htp
    simp only [hasNextPageComments, getNextPageParamComments, htp]
    cases lastPage.items with
    | none => simp
    | some l => by_cases h : l.length = COMMENTS_PAGE_LIMIT <;> simp [h]

/-- C4 (witness): page 1 of a reported 3 total pages has a next page. -/
theorem has_next_page_decision_witness :
    hasNextPageComments { page := some 1, totalPages := some 3 } = true :=
  (has_next_page_decision.1 { page := some 1, totalPages := some 3 } 1 3 rfl rfl).mpr
    (by norm_num)

/-- C6 (code divergence): the claim — and the source's own local-count
fallback (`computedCount`, `previous count ± 1` floored at zero) — expect
`{isLiked: false, count: 4}` for message `"Post unliked"` over
`{isLiked: true, count: 5}` with no explicit boolean/count fields.  The code
instead returns `{isLiked: false, count: 0}`: the `??` chain's final
`Array.isArray(...) ? ....length : null` operand makes an all-absent
response yield `null`, and `Number.isFinite(Number(null))` is true, so the
server-count branch fires with `0` and the carefully written local fallback
is unreachable for this input.  The second conjunct exhibits the gate
passing with `0` on a count-free response. -/
theorem like_unliked_message_code_divergence :
    getLikeResultFromResponse { message := some "Post unliked" } true (some 5) =
      { isLiked := false, count := 0 } ∧
    likeCountFromApi { message := some "Post unliked" } = some 0 := by
  exact ⟨by decide, rfl⟩

/-- C10 (counterexample): the claim says a first-page `totalCount` that is
not a finite number is left unchanged by prepend, but for the query
functions' standard `totalCount: null` the source's
`Number.isFinite(Number(null))` gate is true (`Number(null) = 0`), so
prepend increments `null` to the number `1` instead of leaving it. -/
theorem prepend_null_totalCount_counterexample :
    ((prependEntityToInfiniteQueryData
        (some { pages := [{ items := some [], totalCount := some JSVal.vNull }],
                pageParams := [1] })
        {}).pages.headD {}).totalCount
      = some (JSVal.vNum 1) := by
  decide

/-- C10 (amended): prepending into an uninitialized cache (no pages array)
yields a fresh single-page state holding only the new record, with `page` 1,
`totalPages` 1 and `totalCount` 1; and when the existing first page's
`totalCount` does not coerce to a finite number under `Number(...)` (absent,
`NaN`, or a non-numeric string — but not `null`, which coerces to `0`),
prepend leaves it unchanged. -/
theorem prepend_fresh_and_unknown_totalCount :
    (∀ entity : Entity,
      allItems (prependEntityToInfiniteQueryData none entity) = [entity] ∧
      (prependEntityToInfiniteQueryData none entity).pages.length = 1 ∧
      ((prependEntityToInfiniteQueryData none entity).pages.headD {}).page = some 1 ∧
      ((prependEntityToInfiniteQueryData none entity).pages.headD {}).totalPages = some 1 ∧
      ((prependEntityToInfiniteQueryData none entity).pages.headD {}).totalCount
        = some (JSVal.vNum 1)) ∧
    (∀ (d : InfiniteData) (entity : Entity),
      (d.pages.headD {}).totalCount.bind toNumberFinite = none →
      ((prependEntityToInfiniteQueryData (some d) entity).pages.headD {}).totalCount
        = (d.pages.headD {}).totalCount) := by
  constructor
  · intro entity
    refine ⟨?_, rfl, rfl, rfl, rfl⟩
    simp [allItems, prependEntityToInfiniteQueryData]
  · intro d entity h
    rw [List.headD_eq_head?_getD] at h ⊢
    simp [prependEntityToInfiniteQueryData, h]

/-- C10 (witness): prepending over a cached state whose first page has no
`totalCount` key at all leaves `totalCount` absent. -/
theorem prepend_fresh_and_unknown_totalCount_witness :
    ((prependEntityToInfiniteQueryData
        (some { pages := [{ items := some [] }], pageParams := [1] }) {}).pages.headD
      {}).totalCount = none :=
  prepend_fresh_and_unknown_totalCount.2
    { pages := [{ items := some [] }], pageParams := [1] } {} rfl

theorem pageTotalCountOk_congr {p q : Page} (h : q.totalCount = p.totalCount) :
    pageTotalCountOk q = pageTotalCountOk p := by
  unfold pageTotalCountOk
  rw [h]

theorem all_pageTotalCountOk_map (f : Page → Page)
    (hf : ∀ p, (f p).totalCount = p.totalCount) (l : List Page)
    (h : l.all pageTotalCountOk = true) : (l.map f).all pageTotalCountOk = true := by
  rw [List.all_eq_true] at h ⊢
  intro x hx
  obtain ⟨p, hp, rfl⟩ := List.mem_map.1 hx
  rw [pageTotalCountOk_congr (hf p)]
  exact h p hp


theorem all_pageTotalCountOk_drop (l : List Page) (n : Nat)
    (h : l.all pageTotalCountOk = true) : (l.drop n).all pageTotalCountOk = true := by
  rw [List.all_eq_true] at h ⊢
  intro x hx
  exact h x (List.mem_of_mem_drop hx)

theorem totalCountOk_prepend (s : Option InfiniteData) (entity : Entity)
    (h : totalCountOk s = true) :
    totalCountOk (some (prependEntityToInfiniteQueryData s entity)) = true := by
  cases s with
  | none => rfl
  | some d =>
    simp only [totalCountOk] at h
    simp only [prependEntityToInfiniteQueryData, totalCountOk, List.all_cons,
      Bool.and_eq_true]
    refine ⟨?_, all_pageTotalCountOk_drop d.pages 1 h⟩
    cases hp : d.pages with
    | nil => rfl
    | cons p rest =>
      rw [hp] at h
      simp only [List.all_cons, Bool.and_eq_true] at h
      simp only [List.headD_cons]
      unfold pageTotalCountOk at h ⊢
      cases hc : p.totalCount.bind toNumberFinite with
      | none => simp [hc]
      | some n =>
        rw [hc] at h
        simp only [hc, decide_eq_true_eq] at h ⊢
        exact decide_eq_true (by omega)

theorem totalCountOk_patch (d : InfiniteData) (targetId : String) (patch : Entity)
    (h : totalCountOk (some d) = true) :
    totalCountOk (patchEntityInInfiniteQueryData (some d) targetId patch) = true := by
  simp only [totalCountOk] at h
  simp only [patchEntityInInfiniteQueryData]
  split
  · simpa [totalCountOk] using h
  · simpa [totalCountOk] using
      all_pageTotalCountOk_map _ (fun p => by cases p.items <;> rfl) d.pages h

theorem totalCountOk_replyCount (d : InfiniteData) (commentId : String) (delta : Int)
    (h : totalCountOk (some d) = true) :
    totalCountOk (updateCommentReplyCountInInfiniteQueryData (some d) commentId delta)
      = true := by
  simp only [totalCountOk] at h
  simp only [updateCommentReplyCountInInfiniteQueryData]
  split
  · simpa [totalCountOk] using h
  · simpa [totalCountOk] using
      all_pageTotalCountOk_map _ (fun p => by cases p.items <;> rfl) d.pages h

theorem totalCountOk_remove (d : InfiniteData) (targetId : String)
    (h : totalCountOk (some d) = true) :
    totalCountOk (removeEntityFromInfiniteQueryData (some d) targetId) = true := by
  have hall : d.pages.all pageTotalCountOk = true := by simpa [totalCountOk] using h
  have hmap := all_pageTotalCountOk_map (removePageTransform targetId)
    (fun p => by cases hp : p.items <;> simp [removePageTransform, hp]) d.pages hall
  simp only [removeEntityFromInfiniteQueryData]
  split
  · exact h
  · split
    · exact h
    · split
      · rename_i heq
        simp [totalCountOk, heq]
      · rename_i firstPage rest heq
        rw [heq] at hmap
        simp only [List.all_cons, Bool.and_eq_true] at hmap
        split
        · simp only [totalCountOk, List.all_cons, Bool.and_eq_true]
          refine ⟨?_, hmap.2⟩
          simp only [pageTotalCountOk, Option.some_bind, toNumberFinite,
            decide_eq_true_eq]
          exact le_max_left 0 _
        · simp only [totalCountOk, List.all_cons, Bool.and_eq_true]
          exact ⟨hmap.1, hmap.2⟩

theorem totalCountOk_applyCacheOp (s : Option InfiniteData) (op : CacheOp)
    (h : totalCountOk s = true) : totalCountOk (applyCacheOp s op) = true := by
  cases op with
  | prependOp entity => exact totalCountOk_prepend s entity h
  | patchOp targetId patch =>
    cases s with
    | none => exact h
    | some d => exact totalCountOk_patch d targetId patch h
  | removeOp targetId =>
    cases s with
    | none => exact h
    | some d => exact totalCountOk_remove d targetId h
  | replyCountOp commentId delta =>
    cases s with
    | none => exact h
    | some d => exact totalCountOk_replyCount d commentId delta h

/-- C3: over any sequence of prepend / patch / remove / reply-count
operations on one signature's cached state, every known (finite)
`totalCount` stays non-negative. -/
theorem totalCount_never_negative (s : Option InfiniteData) (ops : List CacheOp)
    (h : totalCountOk s = true) : totalCountOk (applyCacheOps s ops) = true := by
  induction ops generalizing s with
  | nil => exact h
  | cons op rest ih => exact ih _ (totalCountOk_applyCacheOp s op h)

/-- C3 (witness): a remove of the only record at `totalCount = 0` followed by
a prepend keeps `totalCount` non-negative. -/
theorem totalCount_never_negative_witness :
    totalCountOk (applyCacheOps
      (some { pages := [{ items := some [{ id := some "a" }],
                          totalCount := some (JSVal.vNum 0) }],
              pageParams := [1] })
      [CacheOp.removeOp "a", CacheOp.prependOp {}]) = true :=
  totalCount_never_negative
    (some { pages := [{ items := some [{ id := some "a" }],
                        totalCount := some (JSVal.vNum 0) }],
            pageParams := [1] })
    [CacheOp.removeOp "a", CacheOp.prependOp {}] (by decide)

/-- C8: starting from a cached state whose first page's items are known, two
successful prepends followed by one successful `fetchNextPage` concatenate
(in page order) to: most recent prepend, earlier prepend, the first page's
original items, the remaining cached pages' items, then the fetched page's
items. -/
theorem prepend_prepend_fetch_order (p1 : Page) (rest : List Page) (pp : List Int)
    (l1 : List Entity) (r1 r2 : Entity) (fetched : Page) (l2 : List Entity)
    (param : Int) (h1 : p1.items = some l1) (h2 : fetched.items = some l2) :
    allItems (fetchNextPageAppend
        (prependEntityToInfiniteQueryData
          (some (prependEntityToInfiniteQueryData
            (some { pages := p1 :: rest, pageParams := pp }) r1)) r2)
        fetched param)
      = r2 :: r1 :: (l1 ++ allItems { pages := rest, pageParams := pp } ++ l2) := by
  simp [allItems, fetchNextPageAppend, prependEntityToInfiniteQueryData, h1, h2]

/-- C8 (witness): one original single-item page, two prepends and a fetched
single-item page concatenate in the stated order. -/
theorem prepend_prepend_fetch_order_witness :
    allItems (fetchNextPageAppend
        (prependEntityToInfiniteQueryData
          (some (prependEntityToInfiniteQueryData
            (some { pages := [{ items := some [{ id := some "a" }] }], pageParams := [1] })
            { id := some "b" }))
          { id := some "c" })
        { items := some [{ id := some "d" }] } 2)
      = [{ id := some "c" }, { id := some "b" }, { id := some "a" }, { id := some "d" }] := by
  have := prepend_prepend_fetch_order { items := some [{ id := some "a" }] } [] [1]
    [{ id := some "a" }] { id := some "b" } { id := some "c" }
    { items := some [{ id := some "d" }] } [{ id := some "d" }] 2 rfl rfl
  simpa [allItems] using this

theorem runMarkReadAttempts_skip_benign (syntheticMessage fallbackMessage : String)
    (pre : List AttemptOutcome) (h : ∀ x ∈ pre, benignAttemptFailure x)
    (rest : List AttemptOutcome) (lastError : Option MarkReadError) :
    ∃ lastError2,
      runMarkReadAttempts syntheticMessage fallbackMessage (pre ++ rest) lastError
        = runMarkReadAttempts syntheticMessage fallbackMessage rest lastError2 := by
  induction pre generalizing lastError with
  | nil => exact ⟨lastError, rfl⟩
  | cons x pre ih =>
    have hx := h x (List.mem_cons_self x pre)
    have hpre : ∀ y ∈ pre, benignAttemptFailure y :=
      fun y hy => h y (List.mem_cons_of_mem x hy)
    cases x with
    | success body => exact absurd hx (by simp [benignAttemptFailure])
    | failure status =>
      cases status with
      | none =>
        simp only [List.cons_append, runMarkReadAttempts, reduceCtorEq, if_false]
        exact ih hpre (some (.httpError none))
      | some s =>
        have hs : s = 0 ∨ s = 405 := hx
        rcases hs with h0 | h405
        · subst h0
          simp only [List.cons_append, runMarkReadAttempts]
          norm_num
          exact ih hpre (some (.httpError (some 0)))
        · subst h405
          simp only [List.cons_append, runMarkReadAttempts]
          norm_num
          exact ih hpre (some (.httpError (some 405)))

/-- C9: a mark-notification-as-read call whose first non-benign outcome is a
404 completes as a synthetic success rather than an error; a failure status
other than 0/404/405 is raised immediately; and `markAllNotificationsRead`
treats 404 the same way. -/
theorem mark_notification_read_not_found_benign :
    (∀ (notificationId : Option String) (pre rest : List AttemptOutcome),
      truthyString notificationId ≠ none →
      (∀ x ∈ pre, benignAttemptFailure x) →
      markNotificationRead notificationId (pre ++ .failure (some 404) :: rest)
        = .ok { success := some true, message := some "Notification not found." }) ∧
    (∀ (notificationId : Option String) (s : Nat) (rest : List AttemptOutcome),
      truthyString notificationId ≠ none →
      s ≠ 0 → s ≠ 404 → s ≠ 405 →
      markNotificationRead notificationId (.failure (some s) :: rest)
        = .error (.httpError (some s))) ∧
    (∀ pre rest : List AttemptOutcome,
      (∀ x ∈ pre, benignAttemptFailure x) →
      markAllNotificationsRead (pre ++ .failure (some 404) :: rest)
        = .ok { success := some true, message := some "No unread notifications." }) := by
  refine ⟨?_, ?_, ?_⟩
  · intro notificationId pre rest hid hpre
    obtain ⟨v, hv⟩ := Option.ne_none_iff_exists'.mp hid
    unfold markNotificationRead
    rw [hv]
    obtain ⟨lastError2, hle⟩ := runMarkReadAttempts_skip_benign
      "Notification not found." "Failed to mark notification as read."
      pre hpre (.failure (some 404) :: rest) none
    rw [hle]
    simp [runMarkReadAttempts]
  · intro notificationId s rest hid hs0 hs404 hs405
    obtain ⟨v, hv⟩ := Option.ne_none_iff_exists'.mp hid
    unfold markNotificationRead
    rw [hv]
    simp only [runMarkReadAttempts]
    rw [if_neg (by simp [hs404]), if_pos (by simp [hs0, hs404, hs405])]
  · intro pre rest hpre
    unfold markAllNotificationsRead
    obtain ⟨lastError2, hle⟩ := runMarkReadAttempts_skip_benign
      "No unread notifications." "Failed to mark all notifications as read."
      pre hpre (.failure (some 404) :: rest) none
    rw [hle]
    simp [runMarkReadAttempts]

/-- C9 (witness): a first-attempt 404 on a concrete notification id yields
the synthetic success response. -/
theorem mark_notification_read_not_found_benign_witness :
    markNotificationRead (some "n1") [.failure (some 404)]
      = .ok { success := some true, message := some "Notification not found." } :=
  mark_notification_read_not_found_benign.1 (some "n1") [] []
    (by decide) (fun x hx => absurd hx (List.not_mem_nil x))

theorem replacePageTransform_items (targetId : String) (nextEntity : Entity) (p : Page) :
    (replacePageTransform targetId nextEntity p).items
      = p.items.map (List.map (replaceEntityItem targetId nextEntity)) := by
  cases hp : p.items <;> simp [replacePageTransform, hp]

theorem replacePageTransform_meta (targetId : String) (nextEntity : Entity) (p : Page) :
    (replacePageTransform targetId nextEntity p).page = p.page ∧
    (replacePageTransform targetId nextEntity p).totalPages = p.totalPages ∧
    (replacePageTransform targetId nextEntity p).totalCount = p.totalCount := by
  cases hp : p.items <;> simp [replacePageTransform, hp]

theorem allItems_map_replace (d : InfiniteData) (targetId : String) (nextEntity : Entity) :
    allItems { d with pages := d.pages.map (replacePageTransform targetId nextEntity) }
      = (allItems d).map (replaceEntityItem targetId nextEntity) := by
  unfold allItems
  rw [List.map_flatten, List.map_map, List.map_map]
  congr 1
  apply List.map_congr_left
  intro p _
  cases hp : p.items <;> simp [replacePageTransform, hp]

theorem find?_map_replaceEntityItem (targetId : String) (nextEntity : Entity)
    (hn : getEntityId nextEntity = some targetId) :
    ∀ l : List Entity, (∃ a ∈ l, (getEntityId a == some targetId) = true) →
      (l.map (replaceEntityItem targetId nextEntity)).find?
        (fun item => getEntityId item == some targetId) = some nextEntity := by
  intro l
  induction l with
  | nil => rintro ⟨a, ha, _⟩; cases ha
  | cons a l ih =>
    rintro ⟨b, hb, hpb⟩
    by_cases ha : (getEntityId a == some targetId) = true
    · rw [List.map_cons]
      rw [show replaceEntityItem targetId nextEntity a = nextEntity from
        by simp [replaceEntityItem, ha]]
      rw [List.find?_cons, show (getEntityId nextEntity == some targetId) = true from
        by simp [hn]]
    · rw [List.map_cons]
      rw [show replaceEntityItem targetId nextEntity a = a from
        by simp [replaceEntityItem, ha]]
      rw [List.find?_cons, show (getEntityId a == some targetId) = false from
        by simpa using ha]
      apply ih
      rcases List.mem_cons.mp hb with rfl | hb2
      · exact absurd hpb ha
      · exact ⟨b, hb2, hpb⟩

/-- C7: for a non-empty target id, replace substitutes `nextEntity` exactly
at the slots carrying that id in every page, leaves any other record and all
page metadata unchanged, and — when the replacement carries the addressed id,
as it does when the server-returned entity lacked a usable id and the
optimistic placeholder's id was retained by the merge — a read of that id
afterwards returns exactly the replacement.  The merge's id-retention rule
itself is the final conjunct. -/
theorem replace_frame_and_read_back :
    (∀ (d : InfiniteData) (targetId : String) (nextEntity : Entity),
      targetId ≠ "" →
      ∃ d', replaceEntityInInfiniteQueryData (some d) targetId nextEntity = some d' ∧
        (∀ i : Nat, d'.pages[i]?.bind Page.items
            = (d.pages[i]?.bind Page.items).map
                (List.map (replaceEntityItem targetId nextEntity))) ∧
        (∀ i : Nat, d'.pages[i]?.map Page.page = d.pages[i]?.map Page.page ∧
              d'.pages[i]?.map Page.totalPages = d.pages[i]?.map Page.totalPages ∧
              d'.pages[i]?.map Page.totalCount = d.pages[i]?.map Page.totalCount) ∧
        (∀ item : Entity, getEntityId item ≠ some targetId →
          replaceEntityItem targetId nextEntity item = item) ∧
        (getEntityId nextEntity = some targetId →
          0 < idCount d targetId →
          findEntityById d' targetId = some nextEntity)) ∧
    (∀ optimisticEntity serverEntity : Entity,
      getEntityId serverEntity = none →
      ∃ merged,
        mergeOptimisticWithServerEntity (some optimisticEntity) (some serverEntity)
          = some merged ∧
        merged._id = optimisticEntity._id ∧ merged.id = optimisticEntity.id ∧
        getEntityId merged = getEntityId optimisticEntity) := by
  constructor
  · intro d targetId nextEntity ht
    refine ⟨{ d with pages := d.pages.map (replacePageTransform targetId nextEntity) },
      by simp [replaceEntityInInfiniteQueryData, ht], ?_, ?_, ?_, ?_⟩
    · intro i
      rw [List.getElem?_map]
      cases hp : d.pages[i]? with
      | none => rfl
      | some p =>
        simp [replacePageTransform_items targetId nextEntity p]
    · intro i
      rw [List.getElem?_map]
      cases hp : d.pages[i]? with
      | none => exact ⟨rfl, rfl, rfl⟩
      | some p =>
        have hm := replacePageTransform_meta targetId nextEntity p
        simp [hm.1, hm.2.1, hm.2.2]
    · intro item hitem
      simp [replaceEntityItem, hitem]
    · intro hn hpos
      unfold findEntityById
      rw [allItems_map_replace]
      apply find?_map_replaceEntityItem targetId nextEntity hn
      exact List.countP_pos_iff.mp hpos
  · intro optimisticEntity serverEntity hs
    have h1 : truthyString serverEntity._id = none := by
      unfold getEntityId at hs
      cases hh : truthyString serverEntity._id with
      | none => rfl
      | some v => rw [hh] at hs; cases hs
    have h2 : truthyString serverEntity.id = none := by
      unfold getEntityId at hs
      rw [h1] at hs
      exact hs
    refine ⟨_, rfl, ?_, ?_, ?_⟩
    · simp only [mergeOptimisticWithServerEntity, h1, h2]
    · simp only [mergeOptimisticWithServerEntity, h1, h2]
    · simp only [mergeOptimisticWithServerEntity, getEntityId, h1, h2]

/-- C7 (witness): replacing the optimistic record `"tmp"` by the merge of
that placeholder with a server entity lacking a usable id keeps the id
`"tmp"`; reading `"tmp"` afterwards returns exactly the merged record. -/
theorem replace_frame_and_read_back_witness :
    ∃ d', replaceEntityInInfiniteQueryData
        (some { pages := [{ items := some [{ _id := some "tmp",
                                             isOptimistic := some (.vBool true) }] }],
                pageParams := [1] })
        "tmp"
        { _id := some "tmp", isOptimistic := some (.vBool false),
          isLiked := some (.vBool false), likedByMe := some (.vBool false),
          likesCount := some (.vNum 0) }
      = some d' ∧
      findEntityById d' "tmp"
        = some { _id := some "tmp", isOptimistic := some (.vBool false),
                 isLiked := some (.vBool false), likedByMe := some (.vBool false),
                 likesCount := some (.vNum 0) } := by
  obtain ⟨d', heq, _hitems, _hmeta, _hframe, hread⟩ :=
    replace_frame_and_read_back.1
      { pages := [{ items := some [{ _id := some "tmp",
                                     isOptimistic := some (.vBool true) }] }],
        pageParams := [1] }
      "tmp"
      { _id := some "tmp", isOptimistic := some (.vBool false),
        isLiked := some (.vBool false), likedByMe := some (.vBool false),
        likesCount := some (.vNum 0) }
      (by decide)
  exact ⟨d', heq, hread (by decide) (by decide)⟩

theorem removePageTransform_items (targetId : String) (p : Page) :
    (removePageTransform targetId p).items = p.items.map (pageKeepItems targetId) := by
  cases hp : p.items <;> simp [removePageTransform, hp]

theorem removePageTransform_meta (targetId : String) (p : Page) :
    (removePageTransform targetId p).page = p.page ∧
    (removePageTransform targetId p).totalPages = p.totalPages ∧
    (removePageTransform targetId p).totalCount = p.totalCount := by
  cases hp : p.items <;> simp [removePageTransform, hp]

theorem mem_allItems {d : InfiniteData} {p : Page} {l : List Entity} {a : Entity}
    (hp : p ∈ d.pages) (hl : p.items = some l) (ha : a ∈ l) : a ∈ allItems d := by
  unfold allItems
  rw [List.mem_flatten]
  refine ⟨l, ?_, ha⟩
  exact List.mem_map.mpr ⟨p, hp, by rw [hl]; rfl⟩

theorem pageKeepItems_eq_self_of_idCount_zero {d : InfiniteData} {targetId : String}
    (hz : idCount d targetId = 0) {p : Page} (hp : p ∈ d.pages) {l : List Entity}
    (hl : p.items = some l) : pageKeepItems targetId l = l := by
  have hnone := List.countP_eq_zero.mp hz
  apply List.filter_eq_self.mpr
  intro a ha
  simpa using hnone a (mem_allItems hp hl ha)

theorem remove_result_cons (d : InfiniteData) (targetId : String) (ht : targetId ≠ "")
    (hz : idCount d targetId ≠ 0) (p0 : Page) (rest : List Page)
    (hp : d.pages = p0 :: rest) :
    removeEntityFromInfiniteQueryData (some d) targetId
      = some { d with pages :=
          ((match p0.totalCount.bind toNumberFinite with
            | some n =>
              { removePageTransform targetId p0 with
                totalCount := some (.vNum (max 0 (n - (idCount d targetId : Int)))) }
            | none => removePageTransform targetId p0)
           :: List.map (removePageTransform targetId) rest) } := by
  simp only [removeEntityFromInfiniteQueryData, if_neg ht, if_neg hz, hp, List.map_cons]
  rw [(removePageTransform_meta targetId p0).2.2]
  cases hc : p0.totalCount.bind toNumberFinite <;> rfl

/-- C5: remove deletes exactly the records carrying the target id from
whichever pages contain them (0 or 1 records under unique ids), leaves every
other item and all page metadata unchanged, decrements a known (numeric)
first-page `totalCount` by exactly the number of records removed (given the
known total is at least that number), and is a no-op when no record has that
id. -/
theorem remove_deletes_and_decrements (d : InfiniteData) (targetId : String)
    (ht : targetId ≠ "")
    (huniq : idCount d targetId ≤ 1)
    (htc : ∀ n, (d.pages.headD {}).totalCount = some (.vNum n) →
      (idCount d targetId : Int) ≤ n) :
    (idCount d targetId = 0 →
      removeEntityFromInfiniteQueryData (some d) targetId = some d) ∧
    (idCount d targetId = 0 ∨ idCount d targetId = 1) ∧
    ∃ d', removeEntityFromInfiniteQueryData (some d) targetId = some d' ∧
      (∀ i : Nat, d'.pages[i]?.bind Page.items
          = (d.pages[i]?.bind Page.items).map (pageKeepItems targetId)) ∧
      (∀ i : Nat, d'.pages[i]?.map Page.page = d.pages[i]?.map Page.page ∧
            d'.pages[i]?.map Page.totalPages = d.pages[i]?.map Page.totalPages) ∧
      (∀ i : Nat, 1 ≤ i →
        d'.pages[i]?.map Page.totalCount = d.pages[i]?.map Page.totalCount) ∧
      (∀ n : Int, (d.pages.headD {}).totalCount = some (.vNum n) →
        (d'.pages.headD {}).totalCount
          = some (.vNum (n - (idCount d targetId : Int)))) := by
  have hnoop : idCount d targetId = 0 →
      removeEntityFromInfiniteQueryData (some d) targetId = some d := by
    intro h0
    simp [removeEntityFromInfiniteQueryData, ht, h0]
  refine ⟨hnoop, by omega, ?_⟩
  by_cases hz : idCount d targetId = 0
  · refine ⟨d, hnoop hz, ?_, fun i => ⟨rfl, rfl⟩, fun i _ => rfl, ?_⟩
    · intro i
      cases hp : d.pages[i]? with
      | none => rfl
      | some p =>
        cases hl : p.items with
        | none => simp [hl]
        | some l =>
          simp [hl,
            pageKeepItems_eq_self_of_idCount_zero hz (List.getElem?_mem hp) hl]
    · intro n hn
      rw [hn, hz]
      simp
  · have hne : d.pages ≠ [] := by
      intro hnil
      apply hz
      unfold idCount allItems
      rw [hnil]
      rfl
    obtain ⟨p0, rest, hp⟩ : ∃ p0 rest, d.pages = p0 :: rest := by
      cases hpp : d.pages with
      | nil => exact absurd hpp hne
      | cons a b => exact ⟨a, b, rfl⟩
    have hres := remove_result_cons d targetId ht hz p0 rest hp
    cases hgate : p0.totalCount.bind toNumberFinite with
    | some n =>
      rw [hgate] at hres
      refine ⟨_, hres, ?_, ?_, ?_, ?_⟩
      · intro i
        rw [hp]
        cases i with
        | zero => simp [removePageTransform_items]
        | succ j =>
          simp only [List.getElem?_cons_succ, List.getElem?_map]
          cases hq : rest[j]? with
          | none => rfl
          | some q => simp [removePageTransform_items]
      · intro i
        rw [hp]
        have hm := removePageTransform_meta targetId p0
        cases i with
        | zero => exact ⟨by simp [hm.1], by simp [hm.2.1]⟩
        | succ j =>
          simp only [List.getElem?_cons_succ, List.getElem?_map]
          cases hq : rest[j]? with
          | none => exact ⟨rfl, rfl⟩
          | some q =>
            have hmq := removePageTransform_meta targetId q
            exact ⟨by simp [hmq.1], by simp [hmq.2.1]⟩
      · intro i hi
        rw [hp]
        cases i with
        | zero => exact absurd hi (by omega)
        | succ j =>
          simp only [List.getElem?_cons_succ, List.getElem?_map]
          cases hq : rest[j]? with
          | none => rfl
          | some q => simp [(removePageTransform_meta targetId q).2.2]
      · intro m hm
        rw [hp, List.headD_cons] at hm
        have hgm : p0.totalCount.bind toNumberFinite = some m := by rw [hm]; rfl
        rw [hgate] at hgm
        injection hgm with hnm
        subst hnm
        have hcnt : (idCount d targetId : Int) ≤ n := by
          apply htc
          rw [hp, List.headD_cons]
          exact hm
        have hmax : max 0 (n - (idCount d targetId : Int))
            = n - (idCount d targetId : Int) := max_eq_right (by omega)
        simp [List.headD_cons, hmax]
    | none =>
      rw [hgate] at hres
      refine ⟨_, hres, ?_, ?_, ?_, ?_⟩
      · intro i
        rw [hp]
        cases i with
        | zero => simp [removePageTransform_items]
        | succ j =>
          simp only [List.getElem?_cons_succ, List.getElem?_map]
          cases hq : rest[j]? with
          | none => rfl
          | some q => simp [removePageTransform_items]
      · intro i
        rw [hp]
        have hm := removePageTransform_meta targetId p0
        cases i with
        | zero => exact ⟨by simp [hm.1], by simp [hm.2.1]⟩
        | succ j =>
          simp only [List.getElem?_cons_succ, List.getElem?_map]
          cases hq : rest[j]? with
          | none => exact ⟨rfl, rfl⟩
          | some q =>
            have hmq := removePageTransform_meta targetId q
            exact ⟨by simp [hmq.1], by simp [hmq.2.1]⟩
      · intro i hi
        rw [hp]
        cases i with
        | zero => exact absurd hi (by omega)
        | succ j =>
          simp only [List.getElem?_cons_succ, List.getElem?_map]
          cases hq : rest[j]? with
          | none => rfl
          | some q => simp [(removePageTransform_meta targetId q).2.2]
      · intro m hm
        rw [hp, List.headD_cons] at hm
        have hgm : p0.totalCount.bind toNumberFinite = some m := by rw [hm]; rfl
        rw [hgate] at hgm
        exact Option.noConfusion hgm

/-- C5 (witness): removing an id no record carries returns the state
unchanged. -/
theorem remove_deletes_and_decrements_witness :
    removeEntityFromInfiniteQueryData
        (some { pages := [{ items := some [{ id := some "a" }],
                            totalCount := some (JSVal.vNum 3) }],
                pageParams := [1] })
        "b"
      = some { pages := [{ items := some [{ id := some "a" }],
                           totalCount := some (JSVal.vNum 3) }],
               pageParams := [1] } :=
  (remove_deletes_and_decrements
    { pages := [{ items := some [{ id := some "a" }],
                  totalCount := some (JSVal.vNum 3) }],
      pageParams := [1] }
    "b" (by decide) (by decide)
    (by
      intro n hn
      have h3 : (3 : Int) = n := by simpa using hn
      subst h3
      decide)).1 (by decide)